import Mathlib

/-!
Verification of the request-authentication and command-dispatch pipeline of
the Cloudflare worker in worker.js (ReactDiscordBot).

The worker is embedded shallowly:
* A JavaScript value reachable from a parsed JSON body is a JsValue.
  Since JSON.parse is a platform builtin, an incoming raw body is represented
  by its parse result: some v when the body parses to v, none when the body
  is not parseable JSON.
* JavaScript property access, truthiness, string coercion and JSON.stringify
  are modelled explicitly; a thrown exception is an Except.error carrying the
  exception message.
* verifyKey comes from the external discord-interactions package and is
  modelled as an abstract boolean-valued argument of the entry point.
* The entry point additionally returns the list of command-handler names it
  invoked, so that the theorems can observe that no handler ran on a path.
-/

namespace Worker

mutual
/-- JavaScript values as they occur in this worker: the JSON data model plus
undefined. Arrays and objects carry their own list types so that all
functions below are structural recursions the kernel can evaluate. Object
fields are in insertion order and are assumed duplicate-free (JSON.parse
keeps the last duplicate; the worker never produces duplicates). -/
inductive JsValue where
  | undefined
  | null
  | bool (b : Bool)
  | num (n : Int)
  | str (s : String)
  | arr (elems : JsArray)
  | obj (fields : JsFields)
inductive JsArray where
  | nil
  | cons (hd : JsValue) (tl : JsArray)
inductive JsFields where
  | nil
  | cons (key : String) (val : JsValue) (tl : JsFields)
end

def JsArray.ofList : List JsValue → JsArray
  | [] => .nil
  | x :: xs => .cons x (JsArray.ofList xs)

def JsFields.ofList : List (String × JsValue) → JsFields
  | [] => .nil
  | (k, v) :: xs => .cons k v (JsFields.ofList xs)

/-- Array literal helper. -/
def jarr (xs : List JsValue) : JsValue := .arr (JsArray.ofList xs)

/-- Object literal helper. -/
def jobj (fs : List (String × JsValue)) : JsValue := .obj (JsFields.ofList fs)

/-- Own-property lookup on an object, undefined when the key is absent.
The keys the worker reads (type, data, name, options, value) are not
properties of Object.prototype, so no prototype fallback arises here. -/
def lookupField : JsFields → String → JsValue
  | .nil, _ => .undefined
  | .cons k v tl, key => if k = key then v else lookupField tl key

/-- JavaScript property read base.key: throws a TypeError on undefined and
null, reads the own property on objects, and yields undefined on the other
primitives and on arrays (none of the keys read by the worker is a builtin
property of those). -/
def getProp (v : JsValue) (key : String) : Except String JsValue :=
  match v with
  | .undefined => .error ("TypeError: Cannot read properties of undefined (reading " ++ key ++ ")")
  | .null => .error ("TypeError: Cannot read properties of null (reading " ++ key ++ ")")
  | .obj fs => .ok (lookupField fs key)
  | _ => .ok .undefined

/-- Optional-chaining property read base?.key: undefined and null
short-circuit to undefined instead of throwing. -/
def optChainProp (v : JsValue) (key : String) : Except String JsValue :=
  match v with
  | .undefined => .ok .undefined
  | .null => .ok .undefined
  | _ => getProp v key

/-- JavaScript truthiness of the modelled values. -/
def truthy : JsValue → Bool
  | .undefined => false
  | .null => false
  | .bool b => b
  | .num n => n != 0
  | .str s => s != ""
  | .arr _ => true
  | .obj _ => true

/-- Strict equality v === n against a number literal. -/
def jsEqNum (v : JsValue) (n : Int) : Bool :=
  match v with
  | .num m => m == n
  | _ => false

/-- Strict equality v === s against a string literal. -/
def jsEqStr (v : JsValue) (s : String) : Bool :=
  match v with
  | .str t => t == s
  | _ => false

/-- Truthiness of a header value: Headers.get returns null for an absent
header, and the empty string is falsy. -/
def headerTruthy : Option String → Bool
  | none => false
  | some s => s != ""

mutual
/-- JavaScript ToString coercion, as used both for the computed property key
COMMAND_HANDLERS[commandName] and for the template literal interpolation of
commandName. Array elements that are null or undefined join as empty
strings, as in Array.prototype.toString. -/
def jsToStr : JsValue → String
  | .undefined => "undefined"
  | .null => "null"
  | .bool true => "true"
  | .bool false => "false"
  | .num n => toString n
  | .str s => s
  | .arr xs => jsArrJoinStr xs
  | .obj _ => "[object Object]"
def jsArrJoinStr : JsArray → String
  | .nil => ""
  | .cons v .nil => jsElemStr v
  | .cons v tl => jsElemStr v ++ "," ++ jsArrJoinStr tl
def jsElemStr : JsValue → String
  | .undefined => ""
  | .null => ""
  | .bool true => "true"
  | .bool false => "false"
  | .num n => toString n
  | .str s => s
  | .arr xs => jsArrJoinStr xs
  | .obj _ => "[object Object]"
end

def hexDigit (n : Nat) : String :=
  String.singleton (Char.ofNat (if n < 10 then 48 + n else 87 + n))

/-- JSON.stringify escaping of a single character. -/
def escapeChar (c : Char) : String :=
  if c = '"' then "\\\""
  else if c = '\\' then "\\\\"
  else if c = '\x08' then "\\b"
  else if c = '\t' then "\\t"
  else if c = '\n' then "\\n"
  else if c = '\x0c' then "\\f"
  else if c = '\r' then "\\r"
  else if c.toNat < 32 then "\\u00" ++ hexDigit (c.toNat / 16) ++ hexDigit (c.toNat % 16)
  else String.singleton c

def escapeString (s : String) : String :=
  String.join (s.toList.map escapeChar)

mutual
/-- JSON.stringify on the modelled values, with insertion-order keys and no
whitespace. Object fields whose value is undefined are omitted; an
undefined array element serializes as null. (JSON.stringify of a top-level
undefined is the undefined value itself; the worker only ever stringifies
object literals, so that case is unreachable and mapped to null here.) -/
def stringify : JsValue → String
  | .undefined => "null"
  | .null => "null"
  | .bool true => "true"
  | .bool false => "false"
  | .num n => toString n
  | .str s => "\"" ++ escapeString s ++ "\""
  | .arr xs => "[" ++ String.intercalate "," (stringifyArrItems xs) ++ "]"
  | .obj fs => "\x7b" ++ String.intercalate "," (stringifyFieldItems fs) ++ "\x7d"
def stringifyArrItems : JsArray → List String
  | .nil => []
  | .cons v tl => stringify v :: stringifyArrItems tl
def stringifyFieldItems : JsFields → List String
  | .nil => []
  | .cons _ .undefined tl => stringifyFieldItems tl
  | .cons k v tl => ("\"" ++ escapeString k ++ "\":" ++ stringify v) :: stringifyFieldItems tl
end

/-- The observable part of a worker Response: body text, status, and the
Content-Type header when the worker sets one explicitly (the plain 405/401
responses set no header; the runtime default is not modelled). -/
structure WorkerResponse where
  body : String
  status : Nat
  contentType : Option String
deriving DecidableEq, Repr

/-- jsonResponse from worker.js: JSON body with status 200 (the optional
status parameter of the source is never overridden by any caller) and an
explicit application/json content type. -/
def jsonResponse (data : JsValue) : WorkerResponse :=
  { body := stringify data, status := 200, contentType := some "application/json" }

/-- The worker environment bindings used by the dispatch pipeline. -/
structure Env where
  DISCORD_PUBLIC_KEY : String

/-- The external verifyKey primitive of the discord-interactions package:
given the raw body (represented by its parse result), the two header values
and the configured public key, it returns the authenticity verdict. -/
abbrev VerifyFn := Option JsValue → String → String → String → Bool

/-- An inbound request as the worker observes it: HTTP method, the two
signature headers (none when absent), and the raw body represented by its
JSON.parse result (none when the body is not parseable JSON). -/
structure WorkerRequest where
  method : String
  signatureHeader : Option String
  timestampHeader : Option String
  body : Option JsValue

/-- Envelope returned for interaction type 1. -/
def pingAckEnvelope : JsValue := jobj [("type", .num 1)]

/-- Envelope returned for interaction types other than 1 and 2. -/
def unsupportedEnvelope : JsValue :=
  jobj [("type", .num 4),
        ("data", jobj [("content", .str "Unsupported interaction type"),
                       ("flags", .num 64)])]

/-- Envelope returned when no registered command matches; the message
interpolates the coerced command name. -/
def unknownCommandEnvelope (commandName : String) : JsValue :=
  jobj [("type", .num 4),
        ("data", jobj [("content", .str ("Unknown command: " ++ commandName)),
                       ("flags", .num 64)])]

/-- Envelope returned by the login handler when no truthy auth_key option is
supplied. -/
def authKeyRequiredEnvelope : JsValue :=
  jobj [("type", .num 4),
        ("data", jobj [("content", .str "Auth key is required"),
                       ("flags", .num 64)])]

/-- Embed body of the ping handler response. -/
def pongEnvelope : JsValue :=
  jobj [("type", .num 4),
        ("data", jobj [("embeds",
          jarr [jobj [("title", .str "🏓 Pong!"),
                      ("description", .str "Bot is running on Cloudflare Workers!"),
                      ("color", .num 0xbebefe)]])])]

/-- Description text of the placeholder embed, interpolating the command
name between backticks. -/
def comingSoonDescription (commandName : String) : String :=
  "The `" ++ commandName ++ "` command is available in the traditional bot deployment. Full Cloudflare Workers implementation coming soon!"

/-- Placeholder envelope built by featureComingSoonResponse. -/
def comingSoonEnvelope (commandName : String) : JsValue :=
  jobj [("type", .num 4),
        ("data", jobj [
          ("embeds", jarr [jobj [
            ("title", .str "Feature in Development"),
            ("description", .str (comingSoonDescription commandName)),
            ("color", .num 0xbebefe),
            ("footer", jobj [("text", .str "Use the traditional bot (bot.py) for full functionality")])]]),
          ("flags", .num 64)])]

/-- featureComingSoonResponse from worker.js. -/
def featureComingSoonResponse (commandName : String) : WorkerResponse :=
  jsonResponse (comingSoonEnvelope commandName)

/-- Message of the exception thrown by JSON.parse on an unparseable body. -/
def jsonParseError : String := "SyntaxError: Unexpected end of JSON input"

/-- Message of the TypeError thrown when data.options is a value that is
neither undefined, null, nor an array, so that .find is not callable. An
own find field of a plain object would be a non-function JSON value and is
folded into the same error. -/
def findNotFunctionError : String :=
  "TypeError: interaction.data.options.find is not a function"

/-- The callback opt => opt.name === "auth_key" run by Array.prototype.find:
returns the first element whose name property is the string auth_key, or
undefined. Reading the name property of a null or undefined element throws,
and the throw propagates out of find. -/
def findAuthKeyLoop : JsArray → Except String JsValue
  | .nil => .ok .undefined
  | .cons opt tl =>
    match getProp opt "name" with
    | .error e => .error e
    | .ok n => if jsEqStr n "auth_key" then .ok opt else findAuthKeyLoop tl

/-- options?.find(opt => opt.name === "auth_key"): undefined and null
short-circuit through the optional chain; an array runs find; any other
value has no callable find property and throws. -/
def jsFindAuthKey : JsValue → Except String JsValue
  | .undefined => .ok .undefined
  | .null => .ok .undefined
  | .arr xs => findAuthKeyLoop xs
  | _ => .error findNotFunctionError

/-- handlePingCommand from worker.js. -/
def handlePingCommand (_interaction : JsValue) (_env : Env) : Except String WorkerResponse :=
  .ok (jsonResponse pongEnvelope)

/-- handleLoginCommand from worker.js:
authKey = interaction.data.options?.find(opt => opt.name === "auth_key")?.value,
then the required-key reply when authKey is falsy, else the placeholder. -/
def handleLoginCommand (interaction : JsValue) (_env : Env) : Except String WorkerResponse :=
  match getProp interaction "data" with
  | .error e => .error e
  | .ok d =>
    match getProp d "options" with
    | .error e => .error e
    | .ok options =>
      match jsFindAuthKey options with
      | .error e => .error e
      | .ok found =>
        match optChainProp found "value" with
        | .error e => .error e
        | .ok authKey =>
          if !(truthy authKey) then
            .ok (jsonResponse authKeyRequiredEnvelope)
          else
            .ok (featureComingSoonResponse "login")

/-- handleStartShiftCommand from worker.js. -/
def handleStartShiftCommand (_interaction : JsValue) (_env : Env) : Except String WorkerResponse :=
  .ok (featureComingSoonResponse "start-shift")

/-- handleEndShiftCommand from worker.js. -/
def handleEndShiftCommand (_interaction : JsValue) (_env : Env) : Except String WorkerResponse :=
  .ok (featureComingSoonResponse "end-shift")

/-- handleShiftStatusCommand from worker.js. -/
def handleShiftStatusCommand (_interaction : JsValue) (_env : Env) : Except String WorkerResponse :=
  .ok (featureComingSoonResponse "shift-status")

/-- The COMMAND_HANDLERS object literal of worker.js, as the ordered list of
its own properties. -/
def COMMAND_HANDLERS : List (String × (JsValue → Env → Except String WorkerResponse)) :=
  [("ping", handlePingCommand),
   ("login", handleLoginCommand),
   ("start-shift", handleStartShiftCommand),
   ("end-shift", handleEndShiftCommand),
   ("shift-status", handleShiftStatusCommand)]

/-- The command names that are own properties of COMMAND_HANDLERS. -/
def registeredNames : List String := COMMAND_HANDLERS.map Prod.fst

/-- The property names COMMAND_HANDLERS inherits from Object.prototype: the
object literal has the default prototype, so COMMAND_HANDLERS[name] for any
of these yields a truthy inherited value instead of undefined. -/
def objectProtoProps : List String :=
  ["constructor", "hasOwnProperty", "isPrototypeOf", "propertyIsEnumerable",
   "toLocaleString", "toString", "valueOf",
   "__defineGetter__", "__defineSetter__", "__lookupGetter__", "__lookupSetter__",
   "__proto__"]

/-- Result of one fetch invocation when no exception escapes: either a
WorkerResponse, or the value obtained by retrieving a truthy member
inherited from Object.prototype and invoking it as the handler — that value
is never a Response built by this worker, so it is kept abstract. -/
inductive FetchOutcome where
  | resp (r : WorkerResponse)
  | protoCall (propName : String)
deriving DecidableEq, Repr

/-- The fetch entry point of worker.js, line by line. The first component
is the outcome (Except.error e models an exception with message e escaping
fetch, i.e. a rejected promise); the second component records which command
handlers were invoked, for observing that rejected paths never route. -/
def fetch (verifyKey : VerifyFn) (env : Env) (request : WorkerRequest) :
    Except String FetchOutcome × List String :=
  if request.method ≠ "POST" then
    (.ok (.resp ⟨"Method not allowed", 405, none⟩), [])
  else if !(headerTruthy request.signatureHeader) || !(headerTruthy request.timestampHeader) then
    (.ok (.resp ⟨"Missing signature headers", 401, none⟩), [])
  else if !(verifyKey request.body (request.signatureHeader.getD "") (request.timestampHeader.getD "") env.DISCORD_PUBLIC_KEY) then
    (.ok (.resp ⟨"Invalid signature", 401, none⟩), [])
  else
    match request.body with
    | none => (.error jsonParseError, [])
    | some interaction =>
      match getProp interaction "type" with
      | .error e => (.error e, [])
      | .ok ty =>
        if jsEqNum ty 1 then
          (.ok (.resp (jsonResponse pingAckEnvelope)), [])
        else if jsEqNum ty 2 then
          match getProp interaction "data" with
          | .error e => (.error e, [])
          | .ok d =>
            match getProp d "name" with
            | .error e => (.error e, [])
            | .ok nameVal =>
              match COMMAND_HANDLERS.find? (fun p => p.1 == jsToStr nameVal) with
              | some p =>
                match p.2 interaction env with
                | .ok r => (.ok (.resp r), [jsToStr nameVal])
                | .error e => (.error e, [jsToStr nameVal])
              | none =>
                if jsToStr nameVal ∈ objectProtoProps then
                  (.ok (.protoCall (jsToStr nameVal)), ["Object.prototype." ++ jsToStr nameVal])
                else
                  (.ok (.resp (jsonResponse (unknownCommandEnvelope (jsToStr nameVal)))), [])
        else
          (.ok (.resp (jsonResponse unsupportedEnvelope)), [])

/-- Two runs of the same request against the same environment. The module
has no mutable state: COMMAND_HANDLERS is a const binding that is never
written after creation, and no handler writes anything. -/
def runTwice (verifyKey : VerifyFn) (env : Env) (request : WorkerRequest) :
    (Except String FetchOutcome × List String) × (Except String FetchOutcome × List String) :=
  (fetch verifyKey env request, fetch verifyKey env request)

/-- Observation helper: field of the data object of a response envelope. -/
def envelopeDataField (envl : JsValue) (key : String) : JsValue :=
  match envl with
  | .obj fs =>
    match lookupField fs "data" with
    | .obj ds => lookupField ds key
    | _ => .undefined
  | _ => .undefined

/-- Observation helper: field of the first embed of a response envelope. -/
def firstEmbedField (envl : JsValue) (key : String) : JsValue :=
  match envelopeDataField envl "embeds" with
  | .arr (.cons e _) =>
    match e with
    | .obj fs => lookupField fs key
    | _ => .undefined
  | _ => .undefined

/-- The stub policy of the specification, instantiated to this worker: a
handler output is either the single validation-error reply the worker
defines (auth key required) or the placeholder reply naming the command. -/
def stubPolicyOk (commandName : String) (r : WorkerResponse) : Bool :=
  decide (r = jsonResponse authKeyRequiredEnvelope) || decide (r = featureComingSoonResponse commandName)

/-- A verifier that accepts everything, for concrete instantiations. -/
def vkTrue : VerifyFn := fun _ _ _ _ => true

/-- A verifier that rejects everything, for concrete instantiations. -/
def vkFalse : VerifyFn := fun _ _ _ _ => false

/-- A concrete environment for concrete instantiations. -/
def env0 : Env := ⟨"PUBLIC_KEY"⟩

lemma find?_COMMAND_HANDLERS_eq_none {s : String} (h : s ∉ registeredNames) :
    COMMAND_HANDLERS.find? (fun p => p.1 == s) = none := by
  have h' : ¬(s = "ping" ∨ s = "login" ∨ s = "start-shift" ∨ s = "end-shift" ∨ s = "shift-status") := by
    simpa [registeredNames, COMMAND_HANDLERS] using h
  push_neg at h'
  obtain ⟨h1, h2, h3, h4, h5⟩ := h'
  have e1 : ("ping" == s) = false := beq_eq_false_iff_ne.mpr (Ne.symm h1)
  have e2 : ("login" == s) = false := beq_eq_false_iff_ne.mpr (Ne.symm h2)
  have e3 : ("start-shift" == s) = false := beq_eq_false_iff_ne.mpr (Ne.symm h3)
  have e4 : ("end-shift" == s) = false := beq_eq_false_iff_ne.mpr (Ne.symm h4)
  have e5 : ("shift-status" == s) = false := beq_eq_false_iff_ne.mpr (Ne.symm h5)
  simp [COMMAND_HANDLERS, List.find?, e1, e2, e3, e4, e5]

/-- Claim C4: a request whose method is not POST is answered with status 405
before any header or body processing; a POST request with a missing or empty
signature or timestamp header, or whose signature fails verification, is
answered with status 401, and on all three paths no parsing happens and no
handler is invoked (the invocation trace is empty). -/
theorem c4_rejection_paths (vk : VerifyFn) (env : Env) (request : WorkerRequest) :
    (request.method ≠ "POST" →
      fetch vk env request = (.ok (.resp ⟨"Method not allowed", 405, none⟩), [])) ∧
    (request.method = "POST" →
      (headerTruthy request.signatureHeader = false ∨ headerTruthy request.timestampHeader = false) →
      fetch vk env request = (.ok (.resp ⟨"Missing signature headers", 401, none⟩), [])) ∧
    (request.method = "POST" →
      headerTruthy request.signatureHeader = true →
      headerTruthy request.timestampHeader = true →
      vk request.body (request.signatureHeader.getD "") (request.timestampHeader.getD "") env.DISCORD_PUBLIC_KEY = false →
      fetch vk env request = (.ok (.resp ⟨"Invalid signature", 401, none⟩), [])) := by
  refine ⟨?_, ?_, ?_⟩
  · intro h
    unfold fetch
    simp [h]
  · intro hm hh
    unfold fetch
    rw [hm]
    rcases hh with h | h <;> simp [h]
  · intro hm hs ht hv
    unfold fetch
    rw [hm]
    simp [hs, ht, hv]

/-- Witness for c4_rejection_paths at three concrete requests. -/
theorem c4_rejection_paths_witness :
    fetch vkFalse env0 ⟨"GET", none, none, none⟩ =
      (.ok (.resp ⟨"Method not allowed", 405, none⟩), []) ∧
    fetch vkFalse env0 ⟨"POST", none, some "t", none⟩ =
      (.ok (.resp ⟨"Missing signature headers", 401, none⟩), []) ∧
    fetch vkFalse env0 ⟨"POST", some "s", some "t", none⟩ =
      (.ok (.resp ⟨"Invalid signature", 401, none⟩), []) :=
  ⟨(c4_rejection_paths vkFalse env0 _).1 (by decide),
   (c4_rejection_paths vkFalse env0 _).2.1 rfl (Or.inl rfl),
   (c4_rejection_paths vkFalse env0 _).2.2 rfl rfl rfl rfl⟩

/-- Claim C5: a signature-verified POST whose parsed body has type equal to
the number 1 is answered with status 200, Content-Type application/json and
body exactly {"type":1}, whatever else the body contains, and no handler
is invoked. -/
theorem c5_ping_ack (vk : VerifyFn) (env : Env) (request : WorkerRequest) (interaction : JsValue)
    (hm : request.method = "POST")
    (hs : headerTruthy request.signatureHeader = true)
    (ht : headerTruthy request.timestampHeader = true)
    (hb : request.body = some interaction)
    (hv : vk (some interaction) (request.signatureHeader.getD "") (request.timestampHeader.getD "") env.DISCORD_PUBLIC_KEY = true)
    (hty : getProp interaction "type" = .ok (.num 1)) :
    fetch vk env request = (.ok (.resp (jsonResponse pingAckEnvelope)), []) ∧
    jsonResponse pingAckEnvelope =
      ⟨"\x7b\"type\":1\x7d", 200, some "application/json"⟩ := by
  refine ⟨?_, rfl⟩
  unfold fetch
  rw [hm, hb]
  simp [hs, ht, hv, hty, jsEqNum]

/-- Witness for c5_ping_ack: a type 1 body carrying an extra field. -/
theorem c5_ping_ack_witness :
    fetch vkTrue env0 ⟨"POST", some "s", some "t",
        some (jobj [("type", .num 1), ("junk", .str "x")])⟩ =
      (.ok (.resp (jsonResponse pingAckEnvelope)), []) :=
  (c5_ping_ack vkTrue env0
    ⟨"POST", some "s", some "t", some (jobj [("type", .num 1), ("junk", .str "x")])⟩
    (jobj [("type", .num 1), ("junk", .str "x")])
    rfl rfl rfl rfl rfl rfl).1

/-- Claim C9: the dispatch pipeline is deterministic and stateless — running
the identical request twice against the same environment and verifier gives
two structurally identical results. -/
theorem c9_idempotent_replay (vk : VerifyFn) (env : Env) (request : WorkerRequest) :
    (runTwice vk env request).1 = (runTwice vk env request).2 := rfl

/-- Claim C6: a signature-verified type 2 request naming the login command
with an empty options list is answered with status 200 and body exactly
\x7b"type":4,"data":\x7b"content":"Auth key is required","flags":64\x7d\x7d. -/
theorem c6_login_empty_options (vk : VerifyFn) (env : Env) (request : WorkerRequest)
    (interaction d : JsValue)
    (hm : request.method = "POST")
    (hs : headerTruthy request.signatureHeader = true)
    (ht : headerTruthy request.timestampHeader = true)
    (hb : request.body = some interaction)
    (hv : vk (some interaction) (request.signatureHeader.getD "") (request.timestampHeader.getD "") env.DISCORD_PUBLIC_KEY = true)
    (hty : getProp interaction "type" = .ok (.num 2))
    (hd : getProp interaction "data" = .ok d)
    (hn : getProp d "name" = .ok (.str "login"))
    (ho : getProp d "options" = .ok (jarr [])) :
    fetch vk env request = (.ok (.resp (jsonResponse authKeyRequiredEnvelope)), ["login"]) ∧
    jsonResponse authKeyRequiredEnvelope =
      ⟨"\x7b\"type\":4,\"data\":\x7b\"content\":\"Auth key is required\",\"flags\":64\x7d\x7d",
       200, some "application/json"⟩ := by
  refine ⟨?_, rfl⟩
  unfold fetch
  rw [hm, hb]
  simp [hs, ht, hv, hty, hd, hn, ho, jsEqNum, jsToStr, COMMAND_HANDLERS, List.find?,
        handleLoginCommand, jarr, JsArray.ofList, jsFindAuthKey, findAuthKeyLoop,
        optChainProp, truthy]

/-- Witness for c6_login_empty_options: the concrete body of the spec
scenario, type 2, name login, options empty. -/
theorem c6_login_empty_options_witness :
    fetch vkTrue env0 ⟨"POST", some "s", some "t",
        some (jobj [("type", .num 2), ("data", jobj [("name", .str "login"), ("options", jarr [])])])⟩ =
      (.ok (.resp (jsonResponse authKeyRequiredEnvelope)), ["login"]) :=
  (c6_login_empty_options vkTrue env0
    ⟨"POST", some "s", some "t",
      some (jobj [("type", .num 2), ("data", jobj [("name", .str "login"), ("options", jarr [])])])⟩
    (jobj [("type", .num 2), ("data", jobj [("name", .str "login"), ("options", jarr [])])])
    (jobj [("name", .str "login"), ("options", jarr [])])
    rfl rfl rfl rfl rfl rfl rfl rfl rfl).1

/-- Claim C7: a signature-verified type 2 request naming the login command
whose auth_key option carries a truthy value is answered with status 200 by
the placeholder: an ephemeral envelope (flags 64) whose single embed is
titled Feature in Development and whose description contains the literal
command name login. -/
theorem c7_login_with_auth_key (vk : VerifyFn) (env : Env) (request : WorkerRequest)
    (interaction d options found authKey : JsValue)
    (hm : request.method = "POST")
    (hs : headerTruthy request.signatureHeader = true)
    (ht : headerTruthy request.timestampHeader = true)
    (hb : request.body = some interaction)
    (hv : vk (some interaction) (request.signatureHeader.getD "") (request.timestampHeader.getD "") env.DISCORD_PUBLIC_KEY = true)
    (hty : getProp interaction "type" = .ok (.num 2))
    (hd : getProp interaction "data" = .ok d)
    (hn : getProp d "name" = .ok (.str "login"))
    (ho : getProp d "options" = .ok options)
    (hf : jsFindAuthKey options = .ok found)
    (hval : optChainProp found "value" = .ok authKey)
    (htr : truthy authKey = true) :
    fetch vk env request = (.ok (.resp (featureComingSoonResponse "login")), ["login"]) ∧
    (featureComingSoonResponse "login").status = 200 ∧
    envelopeDataField (comingSoonEnvelope "login") "flags" = .num 64 ∧
    firstEmbedField (comingSoonEnvelope "login") "title" = .str "Feature in Development" ∧
    (∃ pre post, firstEmbedField (comingSoonEnvelope "login") "description" =
      .str (pre ++ ("login" ++ post))) := by
  refine ⟨?_, rfl, rfl, rfl,
    ⟨"The `", "` command is available in the traditional bot deployment. Full Cloudflare Workers implementation coming soon!", rfl⟩⟩
  unfold fetch
  rw [hm, hb]
  simp [hs, ht, hv, hty, hd, hn, ho, hf, hval, htr, jsEqNum, jsToStr, COMMAND_HANDLERS,
        List.find?, handleLoginCommand]

/-- Witness for c7_login_with_auth_key: the concrete body of the spec
scenario, options carrying auth_key abc123. -/
theorem c7_login_with_auth_key_witness :
    fetch vkTrue env0 ⟨"POST", some "s", some "t",
        some (jobj [("type", .num 2), ("data", jobj [("name", .str "login"),
          ("options", jarr [jobj [("name", .str "auth_key"), ("value", .str "abc123")]])])])⟩ =
      (.ok (.resp (featureComingSoonResponse "login")), ["login"]) :=
  (c7_login_with_auth_key vkTrue env0
    ⟨"POST", some "s", some "t",
      some (jobj [("type", .num 2), ("data", jobj [("name", .str "login"),
        ("options", jarr [jobj [("name", .str "auth_key"), ("value", .str "abc123")]])])])⟩
    (jobj [("type", .num 2), ("data", jobj [("name", .str "login"),
      ("options", jarr [jobj [("name", .str "auth_key"), ("value", .str "abc123")]])])])
    (jobj [("name", .str "login"),
      ("options", jarr [jobj [("name", .str "auth_key"), ("value", .str "abc123")]])])
    (jarr [jobj [("name", .str "auth_key"), ("value", .str "abc123")]])
    (jobj [("name", .str "auth_key"), ("value", .str "abc123")])
    (.str "abc123")
    rfl rfl rfl rfl rfl rfl rfl rfl rfl rfl rfl rfl).1

/-- Claim C10: the login handler treats an auth_key option whose value is
present but falsy (such as the empty string) exactly like an absent option:
it returns the Auth key is required reply, the same response produced when
the options list is empty. -/
theorem c10_falsy_auth_key_like_absent (interaction d options found authKey : JsValue) (env : Env)
    (hd : getProp interaction "data" = .ok d)
    (ho : getProp d "options" = .ok options)
    (hf : jsFindAuthKey options = .ok found)
    (hval : optChainProp found "value" = .ok authKey)
    (hfalsy : truthy authKey = false) :
    handleLoginCommand interaction env = .ok (jsonResponse authKeyRequiredEnvelope) ∧
    handleLoginCommand (jobj [("data", jobj [("name", .str "login"), ("options", jarr [])])]) env =
      .ok (jsonResponse authKeyRequiredEnvelope) := by
  refine ⟨?_, rfl⟩
  simp [handleLoginCommand, hd, ho, hf, hval, hfalsy]

/-- Witness for c10_falsy_auth_key_like_absent: an auth_key option present
with the empty string as its value. -/
theorem c10_falsy_auth_key_like_absent_witness :
    handleLoginCommand
      (jobj [("type", .num 2), ("data", jobj [("name", .str "login"),
        ("options", jarr [jobj [("name", .str "auth_key"), ("value", .str "")]])])]) env0 =
      .ok (jsonResponse authKeyRequiredEnvelope) :=
  (c10_falsy_auth_key_like_absent
    (jobj [("type", .num 2), ("data", jobj [("name", .str "login"),
      ("options", jarr [jobj [("name", .str "auth_key"), ("value", .str "")]])])])
    (jobj [("name", .str "login"),
      ("options", jarr [jobj [("name", .str "auth_key"), ("value", .str "")]])])
    (jarr [jobj [("name", .str "auth_key"), ("value", .str "")]])
    (jobj [("name", .str "auth_key"), ("value", .str "")])
    (.str "")
    env0 rfl rfl rfl rfl rfl).1

/-- Claim C1, counterexample: a signature-verified POST whose body is not
parseable JSON does not produce the ephemeral unsupported-interaction reply
(nor any response at all): JSON.parse at worker.js line 46 has no
try/catch, so the exception escapes fetch and the promise rejects. -/
theorem c1_counterexample :
    fetch vkTrue env0 ⟨"POST", some "s", some "t", none⟩ = (.error jsonParseError, []) ∧
    (fetch vkTrue env0 ⟨"POST", some "s", some "t", none⟩).1.isOk = false :=
  ⟨rfl, rfl⟩

/-- Claim C1, amended: for every authenticated request whose body is not
parseable, the dispatcher does not return a response at all — the JSON.parse
exception escapes uncaught (and no handler is invoked). Only bodies that do
parse, to a value whose type is neither 1 nor 2, get the ephemeral
unsupported-interaction reply. -/
theorem c1_unparseable_body_faults (vk : VerifyFn) (env : Env) (request : WorkerRequest)
    (hm : request.method = "POST")
    (hs : headerTruthy request.signatureHeader = true)
    (ht : headerTruthy request.timestampHeader = true)
    (hb : request.body = none)
    (hv : vk none (request.signatureHeader.getD "") (request.timestampHeader.getD "") env.DISCORD_PUBLIC_KEY = true) :
    fetch vk env request = (.error jsonParseError, []) := by
  unfold fetch
  rw [hm, hb]
  simp [hs, ht, hv]

/-- Witness for c1_unparseable_body_faults. -/
theorem c1_unparseable_body_faults_witness :
    fetch vkTrue env0 ⟨"POST", some "sig", some "ts", none⟩ = (.error jsonParseError, []) :=
  c1_unparseable_body_faults vkTrue env0 ⟨"POST", some "sig", some "ts", none⟩
    rfl rfl rfl rfl rfl

/-- Claim C2, counterexample: a valid type 2 request naming the registered
login command whose data.options is the number 5 makes the handler throw
(options.find is not a function); the dispatcher has no try/catch around
handler(interaction, env) at worker.js line 59, so no generic ephemeral
failure response is returned — the fault escapes fetch unanswered. -/
theorem c2_counterexample :
    fetch vkTrue env0 ⟨"POST", some "s", some "t",
        some (jobj [("type", .num 2), ("data", jobj [("name", .str "login"), ("options", .num 5)])])⟩ =
      (.error findNotFunctionError, ["login"]) ∧
    (fetch vkTrue env0 ⟨"POST", some "s", some "t",
        some (jobj [("type", .num 2), ("data", jobj [("name", .str "login"), ("options", .num 5)])])⟩).1.isOk
      = false :=
  ⟨rfl, rfl⟩

/-- Claim C2, amended: when the resolved registered handler faults, the
dispatcher does not catch the fault — fetch propagates exactly that fault
and returns no response. -/
theorem c2_handler_fault_propagates (vk : VerifyFn) (env : Env) (request : WorkerRequest)
    (interaction d nameVal : JsValue)
    (p : String × (JsValue → Env → Except String WorkerResponse)) (e : String)
    (hm : request.method = "POST")
    (hs : headerTruthy request.signatureHeader = true)
    (ht : headerTruthy request.timestampHeader = true)
    (hb : request.body = some interaction)
    (hv : vk (some interaction) (request.signatureHeader.getD "") (request.timestampHeader.getD "") env.DISCORD_PUBLIC_KEY = true)
    (hty : getProp interaction "type" = .ok (.num 2))
    (hd : getProp interaction "data" = .ok d)
    (hn : getProp d "name" = .ok nameVal)
    (hfind : COMMAND_HANDLERS.find? (fun q => q.1 == jsToStr nameVal) = some p)
    (hrun : p.2 interaction env = .error e) :
    fetch vk env request = (.error e, [jsToStr nameVal]) := by
  unfold fetch
  rw [hm, hb]
  simp [hs, ht, hv, hty, hd, hn, hfind, hrun, jsEqNum]

/-- Witness for c2_handler_fault_propagates at the options-is-a-number
input. -/
theorem c2_handler_fault_propagates_witness :
    fetch vkTrue env0 ⟨"POST", some "s", some "t",
        some (jobj [("type", .num 2), ("data", jobj [("name", .str "login"), ("options", .num 5)])])⟩ =
      (.error findNotFunctionError, [jsToStr (.str "login")]) :=
  c2_handler_fault_propagates vkTrue env0
    ⟨"POST", some "s", some "t",
      some (jobj [("type", .num 2), ("data", jobj [("name", .str "login"), ("options", .num 5)])])⟩
    (jobj [("type", .num 2), ("data", jobj [("name", .str "login"), ("options", .num 5)])])
    (jobj [("name", .str "login"), ("options", .num 5)])
    (.str "login")
    ("login", handleLoginCommand)
    findNotFunctionError
    rfl rfl rfl rfl rfl rfl rfl rfl rfl rfl

/-- Claim C3, counterexample: the command name toString is not among the
five registered names, yet COMMAND_HANDLERS[commandName] finds the truthy
toString member inherited from Object.prototype, so the worker invokes that
inherited function as the handler instead of returning the ephemeral
Unknown command reply. -/
theorem c3_counterexample :
    fetch vkTrue env0 ⟨"POST", some "s", some "t",
        some (jobj [("type", .num 2), ("data", jobj [("name", .str "toString")])])⟩ =
      (.ok (.protoCall "toString"), ["Object.prototype.toString"]) ∧
    registeredNames.contains "toString" = false :=
  ⟨rfl, rfl⟩

/-- Claim C3, amended: handler resolution is a JavaScript property lookup
that falls through to Object.prototype. An exact, case-sensitive match on
one of the five registered names invokes that handler; an unmatched name
that is a property of Object.prototype invokes the inherited member; only a
name matching neither produces the ephemeral reply containing the literal
command name, with no handler invoked. -/
theorem c3_unknown_command_reply (vk : VerifyFn) (env : Env) (request : WorkerRequest)
    (interaction d nameVal : JsValue) (commandName : String)
    (hm : request.method = "POST")
    (hs : headerTruthy request.signatureHeader = true)
    (ht : headerTruthy request.timestampHeader = true)
    (hb : request.body = some interaction)
    (hv : vk (some interaction) (request.signatureHeader.getD "") (request.timestampHeader.getD "") env.DISCORD_PUBLIC_KEY = true)
    (hty : getProp interaction "type" = .ok (.num 2))
    (hd : getProp interaction "data" = .ok d)
    (hn : getProp d "name" = .ok nameVal)
    (hcn : jsToStr nameVal = commandName)
    (h1 : commandName ∉ registeredNames)
    (h2 : commandName ∉ objectProtoProps) :
    fetch vk env request = (.ok (.resp (jsonResponse (unknownCommandEnvelope commandName))), []) := by
  unfold fetch
  rw [hm, hb]
  simp [hs, ht, hv, hty, hd, hn, hcn, jsEqNum, find?_COMMAND_HANDLERS_eq_none h1, h2]

/-- Witness for c3_unknown_command_reply at an unregistered,
non-prototype name. -/
theorem c3_unknown_command_reply_witness :
    fetch vkTrue env0 ⟨"POST", some "s", some "t",
        some (jobj [("type", .num 2), ("data", jobj [("name", .str "frobnicate")])])⟩ =
      (.ok (.resp (jsonResponse (unknownCommandEnvelope "frobnicate"))), []) :=
  c3_unknown_command_reply vkTrue env0
    ⟨"POST", some "s", some "t",
      some (jobj [("type", .num 2), ("data", jobj [("name", .str "frobnicate")])])⟩
    (jobj [("type", .num 2), ("data", jobj [("name", .str "frobnicate")])])
    (jobj [("name", .str "frobnicate")])
    (.str "frobnicate")
    "frobnicate"
    rfl rfl rfl rfl rfl rfl rfl rfl rfl (by decide) (by decide)

set_option maxRecDepth 8192 in
/-- Claim C8, counterexample: ping is registered, but its handler returns
the fixed Pong embed, which is neither the validation-error reply nor the
placeholder naming the command — it is not even ephemeral (its data object
has no flags field). -/
theorem c8_counterexample :
    registeredNames.contains "ping" = true ∧
    handlePingCommand (jobj []) env0 = .ok (jsonResponse pongEnvelope) ∧
    stubPolicyOk "ping" (jsonResponse pongEnvelope) = false ∧
    envelopeDataField pongEnvelope "flags" = .undefined :=
  ⟨rfl, rfl, by decide, rfl⟩

/-- Claim C8, amended: four of the five registered handlers follow the stub
policy — every successful output is either the validation-error reply (auth
key required) or the placeholder naming the command. The exception is ping,
whose handler returns a fixed non-ephemeral Pong embed that neither
validates an argument nor directs to an alternate deployment. -/
theorem c8_stub_policy_amended (n : String) (h : JsValue → Env → Except String WorkerResponse)
    (hmem : (n, h) ∈ COMMAND_HANDLERS) (hne : n ≠ "ping")
    (i : JsValue) (env : Env) (r : WorkerResponse) (hok : h i env = .ok r) :
    stubPolicyOk n r = true := by
  simp only [COMMAND_HANDLERS, List.mem_cons, List.not_mem_nil, or_false, Prod.mk.injEq] at hmem
  rcases hmem with ⟨hn, hh⟩ | ⟨hn, hh⟩ | ⟨hn, hh⟩ | ⟨hn, hh⟩ | ⟨hn, hh⟩
  · exact absurd hn hne
  · subst hn
    subst hh
    unfold handleLoginCommand at hok
    repeat' split at hok
    all_goals simp_all [stubPolicyOk]
  · subst hn
    subst hh
    unfold handleStartShiftCommand at hok
    simp_all [stubPolicyOk]
  · subst hn
    subst hh
    unfold handleEndShiftCommand at hok
    simp_all [stubPolicyOk]
  · subst hn
    subst hh
    unfold handleShiftStatusCommand at hok
    simp_all [stubPolicyOk]

/-- Witness for c8_stub_policy_amended on the start-shift handler. -/
theorem c8_stub_policy_amended_witness :
    stubPolicyOk "start-shift" (featureComingSoonResponse "start-shift") = true :=
  c8_stub_policy_amended "start-shift" handleStartShiftCommand
    (by simp [COMMAND_HANDLERS]) (by decide) (jobj []) env0
    (featureComingSoonResponse "start-shift") rfl

end Worker
